import Mathlib

/-!
Shallow embedding of `src/type/scalars.ts` (the scalar coercion module of
this GraphQL implementation): the five built-in scalar definitions
(Int, Float, String, Boolean, ID), the specified-scalar registry, and the
`serializeObject` output-normalization helper.

JavaScript runtime values are modelled by `JSValue`; JavaScript numbers
(IEEE-754 doubles) are abstracted as `JSNum`: NaN, +Infinity, -Infinity, or
a finite value represented exactly as a rational.  None of the coercion
logic in the source depends on double rounding, so this abstraction is
faithful at every point the proofs touch.  The runtime's generic
conversions (`Number`, `String`, `Boolean`, `parseInt`, `parseFloat`) are
embedded below following ECMA-262 semantics on this value model (decimal
numeric forms; the hex/octal/binary string forms of `Number`, which no
scalar path in this repository exercises, are out of the model).
-/

attribute [local semireducible] Rat.mul Rat.add Rat.sub Rat.inv

/-- A JavaScript number: NaN, an infinity, or a finite value (modelled as an
exact rational). -/
inductive JSNum : Type
  | nan : JSNum
  | fin (q : ℚ) : JSNum
  | posInf : JSNum
  | negInf : JSNum
deriving DecidableEq, Repr

namespace JSNum

/-- JavaScript strict equality `===` restricted to numbers: `NaN === NaN`
is false, infinities compare equal to themselves, finite values compare as
rationals. -/
def jsEq : JSNum → JSNum → Bool
  | .nan, _ => false
  | _, .nan => false
  | .posInf, .posInf => true
  | .posInf, _ => false
  | _, .posInf => false
  | .negInf, .negInf => true
  | .negInf, _ => false
  | _, .negInf => false
  | .fin p, .fin q => p = q

/-- JavaScript `>` on numbers: any comparison with NaN is false. -/
def jsGt : JSNum → JSNum → Bool
  | .nan, _ => false
  | _, .nan => false
  | .posInf, .posInf => false
  | .posInf, _ => true
  | _, .posInf => false
  | .negInf, _ => false
  | .fin _, .negInf => true
  | .fin p, .fin q => p > q

/-- JavaScript `<` on numbers: any comparison with NaN is false. -/
def jsLt (a b : JSNum) : Bool := jsGt b a

/-- Embedding of `Math.floor`: identity on NaN and the infinities, rational floor on
finite values. -/
def jsFloor : JSNum → JSNum
  | .fin q => .fin ((⌊q⌋ : ℤ) : ℚ)
  | x => x

end JSNum

/-- Digit run to a natural number, most significant first. -/
def digitsToNat (cs : List Char) : ℕ :=
  cs.foldl (fun a c => a * 10 + (c.toNat - 48)) 0

/-- Decimal digits of the proper fraction `n / d` (`n < d`), produced by
long division; `fuel` bounds the number of digits (a double's decimal
expansion always terminates well inside any fuel the proofs use). -/
def decimalDigits (fuel : ℕ) (n d : ℕ) : String :=
  match fuel with
  | 0 => ""
  | fuel + 1 =>
    if n = 0 then ""
    else toString (n * 10 / d) ++ decimalDigits fuel (n * 10 % d) d

namespace JSNum

/-- JavaScript `String()` applied to a number (ECMA-262 ToString on the
`JSNum` abstraction): `"NaN"`, `"Infinity"`, `"-Infinity"`, or the decimal
rendering of the finite rational (integer part, then the fractional digits
when nonzero). -/
def jsNumToString : JSNum → String
  | .nan => "NaN"
  | .posInf => "Infinity"
  | .negInf => "-Infinity"
  | .fin q =>
    let sign : String := if q < 0 then "-" else ""
    let n : ℕ := q.num.natAbs
    let d : ℕ := q.den
    if n % d = 0 then sign ++ toString (n / d)
    else sign ++ toString (n / d) ++ "." ++ decimalDigits 64 (n % d) d

end JSNum

/-- A JavaScript runtime value as the scalar coercion paths observe it:
a number, a string, a boolean, `null`, `undefined`, an array, or a plain
object.  An object carries the outcome of its two serialization
capabilities: `valueOf` (the value a call to a callable own/inherited
`valueOf` returns; `none` models the absence of a callable `valueOf`) and
`toJSON` likewise. -/
inductive JSValue : Type
  | num (x : JSNum) : JSValue
  | str (s : String) : JSValue
  | bool (b : Bool) : JSValue
  | null : JSValue
  | undefined : JSValue
  | arr (xs : List JSValue) : JSValue
  | obj (valueOfResult : Option JSValue) (toJSONResult : Option JSValue) : JSValue

namespace JSValue

/-- JavaScript strict equality `=== ''` against the empty string: true
exactly of the empty string value. -/
def strictEqEmptyStr : JSValue → Bool
  | .str s => s = ""
  | _ => false

/-- Modelled from the spec: the `isObjectLike` helper imported from
`jsutils/isObjectLike` (not under `src/`), "v is an object-like value" —
in JavaScript, `typeof value == 'object' && value !== null`, which holds
exactly of arrays and plain objects in this value model. -/
def isObjectLike : JSValue → Bool
  | .arr _ => true
  | .obj _ _ => true
  | _ => false

/-- Embedding of `Array.isArray`. -/
def isArray : JSValue → Bool
  | .arr _ => true
  | _ => false

mutual

/-- JavaScript `String()` generic string conversion (ECMA-262 ToString):
strings pass through, numbers render decimally, `Array.prototype.toString`
joins elements with `","` (eliding `null`/`undefined`), and a plain object
renders as `"[object Object]"` (the default `Object.prototype.toString`;
the modelled objects carry no custom `toString`). -/
def jsToString : JSValue → String
  | .num x => x.jsNumToString
  | .str s => s
  | .bool b => if b then "true" else "false"
  | .null => "null"
  | .undefined => "undefined"
  | .arr xs => jsArrayToString xs
  | .obj _ _ => "[object Object]"

/-- Embedding of `Array.prototype.join` with separator `","` as used by array
stringification: `null` and `undefined` elements become empty strings. -/
def jsArrayToString : List JSValue → String
  | [] => ""
  | [.null] => ""
  | [.undefined] => ""
  | [v] => jsToString v
  | .null :: y :: xs => "," ++ jsArrayToString (y :: xs)
  | .undefined :: y :: xs => "," ++ jsArrayToString (y :: xs)
  | v :: y :: xs => jsToString v ++ "," ++ jsArrayToString (y :: xs)

end

/-- JavaScript `Boolean()` truthiness: falsy values are `false`, `NaN`,
`0`, `""`, `null` and `undefined`; everything else (all objects and
arrays included) is truthy. -/
def jsToBoolean : JSValue → Bool
  | .num .nan => false
  | .num (.fin q) => q ≠ 0
  | .num _ => true
  | .str s => s ≠ ""
  | .bool b => b
  | .null => false
  | .undefined => false
  | .arr _ => true
  | .obj _ _ => true

end JSValue

/-- Whitespace trimming at both ends of a character list (JavaScript string
trimming as the numeric conversions perform it). -/
def trimWhitespaceChars (cs : List Char) : List Char :=
  ((cs.dropWhile Char.isWhitespace).reverse.dropWhile Char.isWhitespace).reverse

/-- Leading optional sign of a character list: the sign as an integer and
the remaining characters. -/
def splitSign : List Char → ℤ × List Char
  | '+' :: cs => (1, cs)
  | '-' :: cs => (-1, cs)
  | cs => (1, cs)

/-- A decimal exponent suffix (optional sign then a digit run), which must
consume the whole remainder; used by the strict `Number` string grammar. -/
def parseExpSuffix (mant : ℚ) (cs : List Char) : Option ℚ :=
  let sc := splitSign cs
  let ds := sc.2.span Char.isDigit
  if ds.1.isEmpty || !ds.2.isEmpty then none
  else some (mant * (10 : ℚ) ^ (sc.1 * (digitsToNat ds.1 : ℤ)))

/-- The unsigned ECMA-262 StrDecimalLiteral grammar
(`digits [. digits] [e|E [sign] digits]`), which must consume the whole
character list; `none` models NaN. -/
def parseStrictDecimal (cs : List Char) : Option ℚ :=
  let intSplit := cs.span Char.isDigit
  let fracSplit : List Char × List Char :=
    match intSplit.2 with
    | '.' :: rest => rest.span Char.isDigit
    | _ => ([], intSplit.2)
  if intSplit.1.isEmpty && fracSplit.1.isEmpty then none
  else
    let mant : ℚ := (digitsToNat intSplit.1 : ℚ) +
      (digitsToNat fracSplit.1 : ℚ) / (10 : ℚ) ^ fracSplit.1.length
    match fracSplit.2 with
    | [] => some mant
    | 'e' :: rest => parseExpSuffix mant rest
    | 'E' :: rest => parseExpSuffix mant rest
    | _ => none

/-- JavaScript `Number()` applied to a string: trim whitespace, the empty
remainder is `0`, a signed `Infinity` or a signed decimal literal
otherwise, and anything else is NaN. -/
def jsStringToNumber (s : String) : JSNum :=
  let t := trimWhitespaceChars s.toList
  if t.isEmpty then .fin 0
  else
    let sc := splitSign t
    if sc.2 = "Infinity".toList then (if sc.1 = 1 then .posInf else .negInf)
    else
      match parseStrictDecimal sc.2 with
      | some q => .fin (sc.1 * q)
      | none => .nan

/-- JavaScript `parseInt(s, 10)`: trim, optional sign, then the maximal
leading digit run (ignoring any trailing characters); no leading digit
gives NaN, modelled as `none`. -/
def jsParseInt10 (s : String) : Option ℤ :=
  let sc := splitSign (trimWhitespaceChars s.toList)
  let ds := sc.2.span Char.isDigit
  if ds.1.isEmpty then none
  else some (sc.1 * (digitsToNat ds.1 : ℤ))

/-- The value of a `parseFloat` exponent suffix; an exponent without
digits contributes nothing (it is not consumed). -/
def expVal (cs : List Char) : ℤ :=
  let sc := splitSign cs
  let ds := sc.2.span Char.isDigit
  if ds.1.isEmpty then 0 else sc.1 * (digitsToNat ds.1 : ℤ)

/-- JavaScript `parseFloat(s)`: trim, optional sign, then the maximal
leading prefix that is a decimal floating-point literal (or `Infinity`),
ignoring trailing characters; no such prefix gives NaN. -/
def jsParseFloat (s : String) : JSNum :=
  let sc := splitSign (trimWhitespaceChars s.toList)
  match sc.2 with
  | 'I' :: 'n' :: 'f' :: 'i' :: 'n' :: 'i' :: 't' :: 'y' :: _ =>
    if sc.1 = 1 then .posInf else .negInf
  | cs =>
    let intSplit := cs.span Char.isDigit
    let fracSplit : List Char × List Char :=
      match intSplit.2 with
      | '.' :: rest => rest.span Char.isDigit
      | _ => ([], intSplit.2)
    if intSplit.1.isEmpty && fracSplit.1.isEmpty then .nan
    else
      let mant : ℚ := (digitsToNat intSplit.1 : ℚ) +
        (digitsToNat fracSplit.1 : ℚ) / (10 : ℚ) ^ fracSplit.1.length
      let e : ℤ :=
        match fracSplit.2 with
        | 'e' :: rest => expVal rest
        | 'E' :: rest => expVal rest
        | _ => 0
      .fin (sc.1 * mant * (10 : ℚ) ^ e)

/-- JavaScript `Number()` generic numeric conversion (ECMA-262 ToNumber on
this value model): numbers pass through, strings go through the string
grammar, booleans map to 1/0, `null` to 0, `undefined` to NaN, an array
converts via its string form (default ToPrimitive), and a plain object
converts via its extracted `valueOf` primitive when it has one and is NaN
otherwise (default `Object.prototype.toString` yields `"[object Object]"`,
a non-numeric string). -/
def jsToNumber : JSValue → JSNum
  | .num x => x
  | .str s => jsStringToNumber s
  | .bool b => .fin (if b then 1 else 0)
  | .null => .fin 0
  | .undefined => .nan
  | .arr xs => jsStringToNumber (JSValue.jsArrayToString xs)
  | .obj (some p) _ => if p.isObjectLike then .nan else jsToNumber p
  | .obj none _ => .nan

/-- Embedding of `GRAPHQL_MAX_INT` from `scalars.ts`: maximum GraphQL Int (2^31 - 1). -/
def GRAPHQL_MAX_INT : ℤ := 2147483647

/-- Embedding of `GRAPHQL_MIN_INT` from `scalars.ts`: minimum GraphQL Int (-(2^31)). -/
def GRAPHQL_MIN_INT : ℤ := -2147483648

/-- Outcome of `serialize`/`parseValue`: a returned value, or a thrown
`TypeError` carrying its message. -/
inductive SRes : Type
  | ok (value : JSValue)
  | err (msg : String)

/-- Outcome of `parseLiteral`: a returned value, a thrown error carrying a
message, or the source's `return undefined` ("not applicable"). -/
inductive LitRes : Type
  | ok (value : JSValue)
  | err (msg : String)
  | notApplicable

/-- A parsed literal node as the coercion paths observe it: the `kind`
discriminator (the `Kind` tags of `language/kinds`) together with the raw
text `value` for INT/FLOAT/STRING nodes and the boolean `value` for
BOOLEAN nodes; every other kind (NULL, ENUM, LIST, OBJECT, VARIABLE, ...)
is carried by `otherNode` with its kind tag, since no scalar reads more of
it. -/
inductive ASTNode : Type
  | intNode (value : String)
  | floatNode (value : String)
  | stringNode (value : String)
  | booleanNode (value : Bool)
  | otherNode (kind : String)
deriving DecidableEq

open JSNum JSValue

/-- Embedding of `GraphQLInt.serialize` from `scalars.ts`. -/
def intSerialize (outputValue : JSValue) : SRes :=
  if outputValue.strictEqEmptyStr then
    .err "Int cannot represent non 32-bit signed integer value: (empty string)"
  else
    let num := jsToNumber outputValue
    if !(num.jsEq num) || num.jsGt (.fin (GRAPHQL_MAX_INT : ℚ))
        || num.jsLt (.fin (GRAPHQL_MIN_INT : ℚ)) then
      .err ("Int cannot represent non 32-bit signed integer value: "
        ++ outputValue.jsToString)
    else
      let int := num.jsFloor
      if !(int.jsEq num) then
        .err ("Int cannot represent non-integer value: " ++ outputValue.jsToString)
      else .ok (.num int)

/-- Embedding of `GraphQLInt.parseValue` from `scalars.ts` (its body is textually
identical to `serialize`). -/
def intParseValue (inputValue : JSValue) : SRes :=
  if inputValue.strictEqEmptyStr then
    .err "Int cannot represent non 32-bit signed integer value: (empty string)"
  else
    let num := jsToNumber inputValue
    if !(num.jsEq num) || num.jsGt (.fin (GRAPHQL_MAX_INT : ℚ))
        || num.jsLt (.fin (GRAPHQL_MIN_INT : ℚ)) then
      .err ("Int cannot represent non 32-bit signed integer value: "
        ++ inputValue.jsToString)
    else
      let int := num.jsFloor
      if !(int.jsEq num) then
        .err ("Int cannot represent non-integer value: " ++ inputValue.jsToString)
      else .ok (.num int)

/-- Embedding of `GraphQLInt.parseLiteral` from `scalars.ts`: on an INT node, parse the
raw text in base 10 and return it when within the 32-bit range; in every
other case return `undefined` (a NaN from `parseInt` fails both
comparisons). -/
def intParseLiteral (ast : ASTNode) : LitRes :=
  match ast with
  | .intNode value =>
    match jsParseInt10 value with
    | some n =>
      if n ≤ GRAPHQL_MAX_INT ∧ n ≥ GRAPHQL_MIN_INT then .ok (.num (.fin (n : ℚ)))
      else .notApplicable
    | none => .notApplicable
  | _ => .notApplicable

/-- Embedding of `GraphQLFloat.serialize` from `scalars.ts`. -/
def floatSerialize (outputValue : JSValue) : SRes :=
  if outputValue.strictEqEmptyStr then
    .err "Float cannot represent non numeric value: (empty string)"
  else
    let num := jsToNumber outputValue
    if num.jsEq num then .ok (.num num)
    else
      .err ("Float cannot represent non numeric value: " ++ outputValue.jsToString)

/-- Embedding of `GraphQLFloat.parseValue` from `scalars.ts` (identical body to
`serialize`). -/
def floatParseValue (inputValue : JSValue) : SRes :=
  if inputValue.strictEqEmptyStr then
    .err "Float cannot represent non numeric value: (empty string)"
  else
    let num := jsToNumber inputValue
    if num.jsEq num then .ok (.num num)
    else
      .err ("Float cannot represent non numeric value: " ++ inputValue.jsToString)

/-- Embedding of `GraphQLFloat.parseLiteral` from `scalars.ts`: `parseFloat` of the raw
text on FLOAT and INT nodes, `undefined` otherwise. -/
def floatParseLiteral (ast : ASTNode) : LitRes :=
  match ast with
  | .floatNode value => .ok (.num (jsParseFloat value))
  | .intNode value => .ok (.num (jsParseFloat value))
  | _ => .notApplicable

/-- Embedding of `GraphQLString.serialize` from `scalars.ts`. -/
def stringSerialize (outputValue : JSValue) : SRes :=
  if outputValue.isArray then
    .err ("String cannot represent an array value: [" ++ outputValue.jsToString ++ "]")
  else .ok (.str outputValue.jsToString)

/-- Embedding of `GraphQLString.parseValue` from `scalars.ts` (identical body to
`serialize`). -/
def stringParseValue (inputValue : JSValue) : SRes :=
  if inputValue.isArray then
    .err ("String cannot represent an array value: [" ++ inputValue.jsToString ++ "]")
  else .ok (.str inputValue.jsToString)

/-- Embedding of `GraphQLString.parseLiteral` from `scalars.ts`. -/
def stringParseLiteral (ast : ASTNode) : LitRes :=
  match ast with
  | .stringNode value => .ok (.str value)
  | _ => .notApplicable

/-- Embedding of `GraphQLBoolean.serialize` from `scalars.ts`: the `Boolean` built-in. -/
def booleanSerialize (outputValue : JSValue) : SRes :=
  .ok (.bool outputValue.jsToBoolean)

/-- Embedding of `GraphQLBoolean.parseValue` from `scalars.ts`: the `Boolean` built-in. -/
def booleanParseValue (inputValue : JSValue) : SRes :=
  .ok (.bool inputValue.jsToBoolean)

/-- Embedding of `GraphQLBoolean.parseLiteral` from `scalars.ts`. -/
def booleanParseLiteral (ast : ASTNode) : LitRes :=
  match ast with
  | .booleanNode value => .ok (.bool value)
  | _ => .notApplicable

/-- Embedding of `GraphQLID.serialize` from `scalars.ts`: the `String` built-in. -/
def idSerialize (outputValue : JSValue) : SRes :=
  .ok (.str outputValue.jsToString)

/-- Embedding of `GraphQLID.parseValue` from `scalars.ts`: the `String` built-in. -/
def idParseValue (inputValue : JSValue) : SRes :=
  .ok (.str inputValue.jsToString)

/-- Embedding of `GraphQLID.parseLiteral` from `scalars.ts`: the raw literal text on
STRING and INT nodes, `undefined` otherwise. -/
def idParseLiteral (ast : ASTNode) : LitRes :=
  match ast with
  | .stringNode value => .ok (.str value)
  | .intNode value => .ok (.str value)
  | _ => .notApplicable

/-- Modelled from the spec: the ScalarDefinition record
`{ name, description, serialize, parseValue, parseLiteral }` (the
`GraphQLScalarType` class lives in `type/definition.ts`, not under
`src/`; the scalar module only constructs such records and reads their
`name`). -/
structure GraphQLScalarType : Type where
  name : String
  description : String
  serialize : JSValue → SRes
  parseValue : JSValue → SRes
  parseLiteral : ASTNode → LitRes

/-- The `GraphQLInt` scalar definition from `scalars.ts`. -/
def GraphQLInt : GraphQLScalarType where
  name := "Int"
  description := "The `Int` scalar type represents non-fractional signed whole numeric values. Int can represent values between -(2^31) and 2^31 - 1."
  serialize := intSerialize
  parseValue := intParseValue
  parseLiteral := intParseLiteral

/-- The `GraphQLFloat` scalar definition from `scalars.ts`. -/
def GraphQLFloat : GraphQLScalarType where
  name := "Float"
  description := "The `Float` scalar type represents signed double-precision fractional values as specified by [IEEE 754](https://en.wikipedia.org/wiki/IEEE_floating_point)."
  serialize := floatSerialize
  parseValue := floatParseValue
  parseLiteral := floatParseLiteral

/-- The `GraphQLString` scalar definition from `scalars.ts`. -/
def GraphQLString : GraphQLScalarType where
  name := "String"
  description := "The `String` scalar type represents textual data, represented as UTF-8 character sequences. The String type is most often used by GraphQL to represent free-form human-readable text."
  serialize := stringSerialize
  parseValue := stringParseValue
  parseLiteral := stringParseLiteral

/-- The `GraphQLBoolean` scalar definition from `scalars.ts`. -/
def GraphQLBoolean : GraphQLScalarType where
  name := "Boolean"
  description := "The `Boolean` scalar type represents `true` or `false`."
  serialize := booleanSerialize
  parseValue := booleanParseValue
  parseLiteral := booleanParseLiteral

/-- The `GraphQLID` scalar definition from `scalars.ts`. -/
def GraphQLID : GraphQLScalarType where
  name := "ID"
  description := "The `ID` scalar type represents a unique identifier, often used to refetch an object or as key for a cache. The ID type appears in a JSON response as a String; however, it is not intended to be human-readable. When expected as an input type, any string (such as \"4\") or integer (such as 4) input value will be accepted as an ID."
  serialize := idSerialize
  parseValue := idParseValue
  parseLiteral := idParseLiteral

/-- Embedding of `specifiedScalarTypes` from `scalars.ts`: the frozen ordered list of
the five built-in scalar definitions. -/
def specifiedScalarTypes : List GraphQLScalarType :=
  [GraphQLString, GraphQLInt, GraphQLFloat, GraphQLBoolean, GraphQLID]

/-- Modelled from the spec: a named schema type (`GraphQLNamedType` of
`type/definition.ts`, not under `src/`); `isSpecifiedScalarType` reads
only its `name`. -/
structure GraphQLNamedType : Type where
  name : String

/-- Embedding of `isSpecifiedScalarType` from `scalars.ts`: some entry of
`specifiedScalarTypes` has the argument's name. -/
def isSpecifiedScalarType (t : GraphQLNamedType) : Bool :=
  specifiedScalarTypes.any (fun s => t.name == s.name)

/-- The `valueOf` capability of a value: for a plain object the modelled
outcome of its callable `valueOf` (if any); an array's default
`Object.prototype.valueOf` returns the array itself; no other value is
probed (`serializeObject` guards with `isObjectLike`). -/
def valueOfCap : JSValue → Option JSValue
  | .obj vOf _ => vOf
  | .arr xs => some (.arr xs)
  | _ => none

/-- The `toJSON` capability of a value: only a plain object may carry
one in this model (arrays have no default `toJSON`). -/
def toJSONCap : JSValue → Option JSValue
  | .obj _ tJ => tJ
  | _ => none

/-- Embedding of `serializeObject` from `scalars.ts`: on an object-like value, first
probe `valueOf` and return its result when that result is not
object-like; otherwise probe `toJSON` and return its result; otherwise
return the value unchanged. -/
def serializeObject (outputValue : JSValue) : JSValue :=
  if outputValue.isObjectLike then
    match valueOfCap outputValue with
    | some valueOfResult =>
      if !valueOfResult.isObjectLike then valueOfResult
      else
        match toJSONCap outputValue with
        | some j => j
        | none => outputValue
    | none =>
      match toJSONCap outputValue with
      | some j => j
      | none => outputValue
  else outputValue

/-! ## Helper lemmas -/

theorem intParseValue_eq_intSerialize : intParseValue = intSerialize := rfl

theorem floatParseValue_eq_floatSerialize : floatParseValue = floatSerialize := rfl

theorem stringParseValue_eq_stringSerialize : stringParseValue = stringSerialize := rfl

theorem jsEq_refl_iff (x : JSNum) : x.jsEq x = true ↔ x ≠ .nan := by
  cases x <;> simp [JSNum.jsEq]

theorem intSerialize_int_ok (n : ℤ)
    (h1 : GRAPHQL_MIN_INT ≤ n) (h2 : n ≤ GRAPHQL_MAX_INT) :
    intSerialize (.num (.fin (n : ℚ))) = .ok (.num (.fin (n : ℚ))) := by
  have hgt : (JSNum.fin (n : ℚ)).jsGt (.fin ((GRAPHQL_MAX_INT : ℤ) : ℚ)) = false := by
    simp only [JSNum.jsGt, decide_eq_false_iff_not, not_lt]
    exact_mod_cast h2
  have hlt : (JSNum.fin (n : ℚ)).jsLt (.fin ((GRAPHQL_MIN_INT : ℤ) : ℚ)) = false := by
    simp only [JSNum.jsLt, JSNum.jsGt, decide_eq_false_iff_not, not_lt]
    exact_mod_cast h1
  have hfloor : (JSNum.fin (n : ℚ)).jsFloor = .fin (n : ℚ) := by
    simp [JSNum.jsFloor, Int.floor_intCast]
  simp [intSerialize, JSValue.strictEqEmptyStr, jsToNumber, hgt, hlt, hfloor, JSNum.jsEq]

theorem strictEqEmptyStr_false {v : JSValue} (h : v ≠ .str "") :
    v.strictEqEmptyStr = false := by
  cases v with
  | str s =>
    simp only [JSValue.strictEqEmptyStr, decide_eq_false_iff_not]
    exact fun hs => h (by rw [hs])
  | num x => rfl
  | bool b => rfl
  | null => rfl
  | undefined => rfl
  | arr xs => rfl
  | obj vOf tJ => rfl

/-! ## C1 -/

/-- C1: for every integer `n` with `-2147483648 ≤ n ≤ 2147483647`,
`GraphQLInt.serialize` returns `n` unchanged and `GraphQLInt.parseValue`
returns `n` unchanged (in-range integers pass through on both coercion
paths). -/
theorem int_inrange_identity (n : ℤ)
    (h1 : -2147483648 ≤ n) (h2 : n ≤ 2147483647) :
    GraphQLInt.serialize (.num (.fin (n : ℚ))) = .ok (.num (.fin (n : ℚ))) ∧
    GraphQLInt.parseValue (.num (.fin (n : ℚ))) = .ok (.num (.fin (n : ℚ))) := by
  have h := intSerialize_int_ok n h1 h2
  exact ⟨h, by rw [show GraphQLInt.parseValue = intParseValue from rfl,
    intParseValue_eq_intSerialize]; exact h⟩

/-- C1 witness: instance at `n = 3`. -/
theorem int_inrange_identity_witness :
    GraphQLInt.serialize (.num (.fin ((3 : ℤ) : ℚ))) = .ok (.num (.fin ((3 : ℤ) : ℚ))) ∧
    GraphQLInt.parseValue (.num (.fin ((3 : ℤ) : ℚ))) = .ok (.num (.fin ((3 : ℤ) : ℚ))) :=
  int_inrange_identity 3 (by decide) (by decide)

/-! ## C2 -/

/-- Outside the signed 32-bit range `[-2147483648, 2147483647]`, in the
sense of the runtime numeric comparison: both infinities lie outside; NaN
compares outside no bound. -/
def outOfInt32Range : JSNum → Prop
  | .nan => False
  | .posInf => True
  | .negInf => True
  | .fin q => q > 2147483647 ∨ q < -2147483648

/-- A finite numeric with nonzero fractional part (flooring changes it). -/
def isFractional : JSNum → Prop
  | .fin q => ((⌊q⌋ : ℤ) : ℚ) ≠ q
  | _ => False

theorem intGuard_eq_true_iff (x : JSNum) :
    (!(x.jsEq x) || x.jsGt (.fin ((GRAPHQL_MAX_INT : ℤ) : ℚ))
      || x.jsLt (.fin ((GRAPHQL_MIN_INT : ℤ) : ℚ))) = true ↔
    (x = .nan ∨ outOfInt32Range x) := by
  cases x with
  | nan => simp [JSNum.jsEq, JSNum.jsGt, JSNum.jsLt, outOfInt32Range]
  | posInf => simp [JSNum.jsEq, JSNum.jsGt, JSNum.jsLt, outOfInt32Range]
  | negInf => simp [JSNum.jsEq, JSNum.jsGt, JSNum.jsLt, outOfInt32Range]
  | fin q =>
    simp only [JSNum.jsEq, JSNum.jsGt, JSNum.jsLt, decide_eq_true_eq,
      Bool.or_eq_true, Bool.not_eq_true', decide_eq_false_iff_not, outOfInt32Range]
    rw [GRAPHQL_MAX_INT, GRAPHQL_MIN_INT]
    push_cast
    simp

theorem intSerialize_err_badnum {v : JSValue} (hv : v ≠ .str "")
    (hx : jsToNumber v = .nan ∨ outOfInt32Range (jsToNumber v)) :
    intSerialize v
      = .err ("Int cannot represent non 32-bit signed integer value: "
          ++ v.jsToString) := by
  simp only [intSerialize, strictEqEmptyStr_false hv, Bool.false_eq_true, if_false]
  rw [if_pos ((intGuard_eq_true_iff (jsToNumber v)).mpr hx)]

theorem intSerialize_err_fractional {v : JSValue} (hv : v ≠ .str "")
    (hr : ¬ outOfInt32Range (jsToNumber v)) (hf : isFractional (jsToNumber v)) :
    intSerialize v
      = .err ("Int cannot represent non-integer value: " ++ v.jsToString) := by
  have hnan : jsToNumber v ≠ .nan := by
    intro h; rw [h] at hf; exact hf
  simp only [intSerialize, strictEqEmptyStr_false hv, Bool.false_eq_true, if_false]
  rw [if_neg (by
    rw [intGuard_eq_true_iff]
    intro h; rcases h with h | h
    · exact hnan h
    · exact hr h)]
  rcases hx : jsToNumber v with _ | q
  · exact absurd hx hnan
  · rw [hx] at hf
    rw [if_pos]
    simp only [JSNum.jsFloor, JSNum.jsEq, Bool.not_eq_eq_eq_not, Bool.not_true,
      decide_eq_false_iff_not]
    exact hf
  · rw [hx] at hf; exact absurd hf (by simp [isFractional])
  · rw [hx] at hf; exact absurd hf (by simp [isFractional])

theorem intSerialize_ok_of_good {v : JSValue} (hv : v ≠ .str "")
    (hnan : jsToNumber v ≠ .nan) (hr : ¬ outOfInt32Range (jsToNumber v))
    (hf : ¬ isFractional (jsToNumber v)) :
    intSerialize v = .ok (.num ((jsToNumber v).jsFloor)) := by
  simp only [intSerialize, strictEqEmptyStr_false hv, Bool.false_eq_true, if_false]
  rw [if_neg (by
    rw [intGuard_eq_true_iff]
    intro h; rcases h with h | h
    · exact hnan h
    · exact hr h)]
  rcases hx : jsToNumber v with _ | q
  · exact absurd hx hnan
  · rw [hx] at hf
    rw [if_neg]
    simp only [JSNum.jsFloor, JSNum.jsEq, Bool.not_eq_eq_eq_not, Bool.not_false,
      decide_eq_true_eq]
    simpa [isFractional] using hf
  · rfl
  · rfl

/-- C2 counterexample: `Int.serialize(2147483648)` does fail, but its
message is prefixed with the scalar name — "Int cannot represent non
32-bit signed integer value: 2147483648" — which is not identical in
wording to the §4 text "cannot represent non 32-bit signed integer value:
2147483648" asserted by the claim. -/
theorem int_serialize_message_not_spec_text :
    GraphQLInt.serialize (.num (.fin 2147483648))
      = .err "Int cannot represent non 32-bit signed integer value: 2147483648" ∧
    "Int cannot represent non 32-bit signed integer value: 2147483648"
      ≠ "cannot represent non 32-bit signed integer value: 2147483648" :=
  ⟨rfl, by decide⟩

/-- C2 (amended): `GraphQLInt.serialize` and `GraphQLInt.parseValue` agree
on every input and fail exactly on: the empty string (with the distinct
message "Int cannot represent non 32-bit signed integer value: (empty
string)"), inputs whose numeric conversion is NaN or outside
`[-2147483648, 2147483647]` (message "Int cannot represent non 32-bit
signed integer value: {v}"), and in-range fractional numerics (message
"Int cannot represent non-integer value: {v}") — each message being the
§4 text prefixed by the scalar name; in particular `2147483648`,
`-2147483649`, `1.5` and `""` all fail. -/
theorem int_failure_characterization (v : JSValue) :
    ((∃ m, GraphQLInt.serialize v = .err m) ↔
      (v = .str "" ∨ jsToNumber v = .nan ∨ outOfInt32Range (jsToNumber v) ∨
        isFractional (jsToNumber v))) ∧
    (v = .str "" →
      GraphQLInt.serialize v
        = .err "Int cannot represent non 32-bit signed integer value: (empty string)") ∧
    (v ≠ .str "" → (jsToNumber v = .nan ∨ outOfInt32Range (jsToNumber v)) →
      GraphQLInt.serialize v
        = .err ("Int cannot represent non 32-bit signed integer value: "
            ++ v.jsToString)) ∧
    (v ≠ .str "" → ¬ outOfInt32Range (jsToNumber v) → isFractional (jsToNumber v) →
      GraphQLInt.serialize v
        = .err ("Int cannot represent non-integer value: " ++ v.jsToString)) ∧
    GraphQLInt.parseValue v = GraphQLInt.serialize v ∧
    GraphQLInt.serialize (.num (.fin 2147483648))
      = .err "Int cannot represent non 32-bit signed integer value: 2147483648" ∧
    GraphQLInt.serialize (.num (.fin (-2147483649)))
      = .err "Int cannot represent non 32-bit signed integer value: -2147483649" ∧
    GraphQLInt.serialize (.num (.fin (3 / 2)))
      = .err "Int cannot represent non-integer value: 1.5" ∧
    GraphQLInt.serialize (.str "")
      = .err "Int cannot represent non 32-bit signed integer value: (empty string)" := by
  refine ⟨?_, ?_, ?_, ?_, ?_, rfl, rfl, rfl, rfl⟩
  case refine_2 => intro hv; subst hv; rfl
  case refine_3 => exact fun hv hx => intSerialize_err_badnum hv hx
  case refine_4 => exact fun hv hr hf => intSerialize_err_fractional hv hr hf
  case refine_5 => rw [show GraphQLInt.parseValue = intParseValue from rfl,
    intParseValue_eq_intSerialize]; rfl
  case refine_1 =>
    constructor
    · intro hm
      by_cases hv : v = .str ""
      · exact Or.inl hv
      by_cases hnan : jsToNumber v = .nan
      · exact Or.inr (Or.inl hnan)
      by_cases hr : outOfInt32Range (jsToNumber v)
      · exact Or.inr (Or.inr (Or.inl hr))
      by_cases hf : isFractional (jsToNumber v)
      · exact Or.inr (Or.inr (Or.inr hf))
      rcases hm with ⟨m, hm⟩
      rw [show GraphQLInt.serialize = intSerialize from rfl,
        intSerialize_ok_of_good hv hnan hr hf] at hm
      cases hm
    · intro hcond
      by_cases hv : v = .str ""
      · subst hv; exact ⟨_, rfl⟩
      rcases hcond with h | hnan | hrange | hfrac
      · exact absurd h hv
      · exact ⟨_, intSerialize_err_badnum hv (Or.inl hnan)⟩
      · exact ⟨_, intSerialize_err_badnum hv (Or.inr hrange)⟩
      · by_cases hr : outOfInt32Range (jsToNumber v)
        · exact ⟨_, intSerialize_err_badnum hv (Or.inr hr)⟩
        · exact ⟨_, intSerialize_err_fractional hv hr hfrac⟩

/-- C2 witness: instance of the amended characterization at the in-range
fractional input 1.5 (and, via the closed conjuncts, at 2147483648,
-2147483649 and the empty string). -/
theorem int_failure_characterization_witness :
    GraphQLInt.serialize (.num (.fin (3 / 2)))
      = .err ("Int cannot represent non-integer value: "
          ++ (JSValue.num (.fin (3 / 2))).jsToString) :=
  (int_failure_characterization (.num (.fin (3 / 2)))).2.2.2.1
    (by intro h; cases h)
    (by simp only [jsToNumber, outOfInt32Range]; push_neg; constructor <;> norm_num)
    (by simp only [jsToNumber, isFractional]; norm_num)

/-! ## C3 -/

/-- C3: `GraphQLInt.parseLiteral` accepts only INT nodes; an INT node's raw
text is parsed as a base-10 integer and returned when it lies in
`[-2147483648, 2147483647]`; an out-of-range INT literal yields
NotApplicable rather than an error, and every non-INT node yields
NotApplicable — in particular INT("123") gives 123 while
INT("99999999999") and STRING("1") give NotApplicable. -/
theorem int_parseLiteral_spec :
    (∀ s n, jsParseInt10 s = some n → -2147483648 ≤ n → n ≤ 2147483647 →
      GraphQLInt.parseLiteral (.intNode s) = .ok (.num (.fin (n : ℚ)))) ∧
    (∀ s n, jsParseInt10 s = some n → (n > 2147483647 ∨ n < -2147483648) →
      GraphQLInt.parseLiteral (.intNode s) = .notApplicable) ∧
    (∀ ast, (∀ s, ast ≠ .intNode s) → GraphQLInt.parseLiteral ast = .notApplicable) ∧
    GraphQLInt.parseLiteral (.intNode "123") = .ok (.num (.fin 123)) ∧
    GraphQLInt.parseLiteral (.intNode "99999999999") = .notApplicable ∧
    GraphQLInt.parseLiteral (.stringNode "1") = .notApplicable := by
  refine ⟨?_, ?_, ?_, rfl, rfl, rfl⟩
  · intro s n hp h1 h2
    rw [show GraphQLInt.parseLiteral = intParseLiteral from rfl]
    simp only [intParseLiteral, hp]
    rw [if_pos ⟨h2, h1⟩]
  · intro s n hp hout
    rw [show GraphQLInt.parseLiteral = intParseLiteral from rfl]
    simp only [intParseLiteral, hp]
    rw [if_neg]
    intro ⟨hle, hge⟩
    rcases hout with h | h
    · exact absurd hle (by rw [GRAPHQL_MAX_INT] at hle ⊢; omega)
    · exact absurd hge (by rw [GRAPHQL_MIN_INT] at hge ⊢; omega)
  · intro ast hne
    cases ast with
    | intNode s => exact absurd rfl (hne s)
    | floatNode s => rfl
    | stringNode s => rfl
    | booleanNode b => rfl
    | otherNode k => rfl

/-- C3 witness: instance of the in-range clause at INT("123"). -/
theorem int_parseLiteral_spec_witness :
    GraphQLInt.parseLiteral (.intNode "123") = .ok (.num (.fin ((123 : ℤ) : ℚ))) :=
  int_parseLiteral_spec.1 "123" 123 (by decide) (by decide) (by decide)

/-! ## C4 -/

/-- C4 counterexample: `Float.serialize(NaN)` does fail, but with the
scalar-name-prefixed message "Float cannot represent non numeric value:
NaN", which is not identical in wording to the §4 text "cannot represent
non numeric value: NaN" the claim asserts. -/
theorem float_serialize_message_not_spec_text :
    GraphQLFloat.serialize (.num .nan)
      = .err "Float cannot represent non numeric value: NaN" ∧
    "Float cannot represent non numeric value: NaN"
      ≠ "cannot represent non numeric value: NaN" :=
  ⟨rfl, by decide⟩

/-- C4 (amended): `GraphQLFloat.serialize` and `GraphQLFloat.parseValue`
agree on every input, reject the empty string with the distinct message
"Float cannot represent non numeric value: (empty string)", fail with
"Float cannot represent non numeric value: {v}" (the §4 text prefixed by
the scalar name) exactly when the numeric conversion of a non-empty-string
input is NaN, and otherwise return the converted numeric value unchanged;
`parseLiteral` parses the raw text of FLOAT and INT nodes via `parseFloat`
and yields NotApplicable on every other node kind — in particular
serialize(NaN) fails, serialize("3.14") = 3.14, parseLiteral(FLOAT("2.5"))
= 2.5 and parseLiteral(INT("4")) = 4. -/
theorem float_characterization (v : JSValue) :
    (v = .str "" →
      GraphQLFloat.serialize v
        = .err "Float cannot represent non numeric value: (empty string)") ∧
    (v ≠ .str "" → jsToNumber v = .nan →
      GraphQLFloat.serialize v
        = .err ("Float cannot represent non numeric value: " ++ v.jsToString)) ∧
    (v ≠ .str "" → jsToNumber v ≠ .nan →
      GraphQLFloat.serialize v = .ok (.num (jsToNumber v))) ∧
    GraphQLFloat.parseValue v = GraphQLFloat.serialize v ∧
    (∀ s, GraphQLFloat.parseLiteral (.floatNode s) = .ok (.num (jsParseFloat s))) ∧
    (∀ s, GraphQLFloat.parseLiteral (.intNode s) = .ok (.num (jsParseFloat s))) ∧
    (∀ ast, (∀ s, ast ≠ .floatNode s) → (∀ s, ast ≠ .intNode s) →
      GraphQLFloat.parseLiteral ast = .notApplicable) ∧
    GraphQLFloat.serialize (.str "3.14") = .ok (.num (.fin (157 / 50))) ∧
    GraphQLFloat.parseLiteral (.floatNode "2.5") = .ok (.num (.fin (5 / 2))) ∧
    GraphQLFloat.parseLiteral (.intNode "4") = .ok (.num (.fin 4)) := by
  refine ⟨?_, ?_, ?_, ?_, fun s => rfl, fun s => rfl, ?_, rfl, rfl, rfl⟩
  · intro hv; subst hv; rfl
  · intro hv hnan
    rw [show GraphQLFloat.serialize = floatSerialize from rfl]
    simp only [floatSerialize, strictEqEmptyStr_false hv, Bool.false_eq_true, if_false]
    rw [if_neg (by rw [hnan]; simp [JSNum.jsEq])]
  · intro hv hnan
    rw [show GraphQLFloat.serialize = floatSerialize from rfl]
    simp only [floatSerialize, strictEqEmptyStr_false hv, Bool.false_eq_true, if_false]
    rw [if_pos ((jsEq_refl_iff (jsToNumber v)).mpr hnan)]
  · rw [show GraphQLFloat.parseValue = floatParseValue from rfl,
      floatParseValue_eq_floatSerialize]; rfl
  · intro ast hf hi
    cases ast with
    | intNode s => exact absurd rfl (hi s)
    | floatNode s => exact absurd rfl (hf s)
    | stringNode s => rfl
    | booleanNode b => rfl
    | otherNode k => rfl

/-- C4 witness: instance of the NaN-failure clause at `undefined`
(whose numeric conversion is NaN). -/
theorem float_characterization_witness :
    GraphQLFloat.serialize .undefined
      = .err ("Float cannot represent non numeric value: "
          ++ JSValue.undefined.jsToString) :=
  (float_characterization .undefined).2.1 (by intro h; cases h) rfl

/-! ## C5 -/

/-- C5 counterexample: `String.serialize([1,2])` does fail, but with the
scalar-name-prefixed message "String cannot represent an array value:
[1,2]", which is not the claimed text "cannot represent an array value:
[1,2]". -/
theorem string_serialize_message_not_spec_text :
    GraphQLString.serialize (.arr [.num (.fin 1), .num (.fin 2)])
      = .err "String cannot represent an array value: [1,2]" ∧
    "String cannot represent an array value: [1,2]"
      ≠ "cannot represent an array value: [1,2]" :=
  ⟨rfl, by decide⟩

/-- C5 (amended): `GraphQLString.serialize` and `GraphQLString.parseValue`
agree on every input and fail exactly on array inputs, with the message
"String cannot represent an array value: [{v}]" (the §4 text prefixed by
the scalar name); every non-array input is returned as its generic string
conversion (so serialize(42) = "42"); `parseLiteral` returns the literal
text verbatim for a STRING node and NotApplicable for every other node
kind. -/
theorem string_characterization (v : JSValue) :
    ((∃ m, GraphQLString.serialize v = .err m) ↔ v.isArray = true) ∧
    (v.isArray = true →
      GraphQLString.serialize v
        = .err ("String cannot represent an array value: [" ++ v.jsToString ++ "]")) ∧
    (v.isArray = false → GraphQLString.serialize v = .ok (.str v.jsToString)) ∧
    GraphQLString.parseValue v = GraphQLString.serialize v ∧
    (∀ s, GraphQLString.parseLiteral (.stringNode s) = .ok (.str s)) ∧
    (∀ ast, (∀ s, ast ≠ .stringNode s) → GraphQLString.parseLiteral ast = .notApplicable) ∧
    GraphQLString.serialize (.num (.fin 42)) = .ok (.str "42") ∧
    GraphQLString.parseLiteral (.intNode "1") = .notApplicable := by
  have harr : ∀ w : JSValue, w.isArray = true →
      GraphQLString.serialize w
        = .err ("String cannot represent an array value: [" ++ w.jsToString ++ "]") := by
    intro w hw
    rw [show GraphQLString.serialize = stringSerialize from rfl]
    simp only [stringSerialize, hw, if_true]
  have hnoarr : ∀ w : JSValue, w.isArray = false →
      GraphQLString.serialize w = .ok (.str w.jsToString) := by
    intro w hw
    rw [show GraphQLString.serialize = stringSerialize from rfl]
    simp only [stringSerialize, hw, Bool.false_eq_true, if_false]
  refine ⟨?_, harr v, hnoarr v, ?_, fun s => rfl, ?_, rfl, rfl⟩
  · constructor
    · intro ⟨m, hm⟩
      by_cases hw : v.isArray = true
      · exact hw
      · rw [hnoarr v (by simpa using hw)] at hm; cases hm
    · intro hw; exact ⟨_, harr v hw⟩
  · rw [show GraphQLString.parseValue = stringParseValue from rfl,
      stringParseValue_eq_stringSerialize]; rfl
  · intro ast hne
    cases ast with
    | stringNode s => exact absurd rfl (hne s)
    | intNode s => rfl
    | floatNode s => rfl
    | booleanNode b => rfl
    | otherNode k => rfl

/-- C5 witness: instance of the array-failure clause at the array [1,2]. -/
theorem string_characterization_witness :
    GraphQLString.serialize (.arr [.num (.fin 1), .num (.fin 2)])
      = .err ("String cannot represent an array value: ["
          ++ (JSValue.arr [.num (.fin 1), .num (.fin 2)]).jsToString ++ "]") :=
  (string_characterization (.arr [.num (.fin 1), .num (.fin 2)])).2.1 rfl

/-! ## C6 -/

/-- C6: `GraphQLID.serialize` and `GraphQLID.parseValue` stringify every
input unconditionally and never fail (arrays included), and
`GraphQLID.parseLiteral` returns the literal text unchanged for STRING and
INT nodes (no numeric parsing, so leading zeros are preserved) and
NotApplicable for every other node kind — in particular serialize(4) =
"4" and parseLiteral on STRING("007") and INT("007") both give "007". -/
theorem id_characterization (v : JSValue) :
    GraphQLID.serialize v = .ok (.str v.jsToString) ∧
    GraphQLID.parseValue v = .ok (.str v.jsToString) ∧
    (∀ s, GraphQLID.parseLiteral (.stringNode s) = .ok (.str s)) ∧
    (∀ s, GraphQLID.parseLiteral (.intNode s) = .ok (.str s)) ∧
    (∀ ast, (∀ s, ast ≠ .stringNode s) → (∀ s, ast ≠ .intNode s) →
      GraphQLID.parseLiteral ast = .notApplicable) ∧
    GraphQLID.serialize (.num (.fin 4)) = .ok (.str "4") ∧
    GraphQLID.parseLiteral (.stringNode "007") = .ok (.str "007") ∧
    GraphQLID.parseLiteral (.intNode "007") = .ok (.str "007") := by
  refine ⟨rfl, rfl, fun s => rfl, fun s => rfl, ?_, rfl, rfl, rfl⟩
  intro ast hs hi
  cases ast with
  | stringNode s => exact absurd rfl (hs s)
  | intNode s => exact absurd rfl (hi s)
  | floatNode s => rfl
  | booleanNode b => rfl
  | otherNode k => rfl

/-- C6 witness: instance of the not-applicable clause at FLOAT("1.0"). -/
theorem id_characterization_witness :
    GraphQLID.parseLiteral (.floatNode "1.0") = .notApplicable :=
  (id_characterization .null).2.2.2.2.1 (.floatNode "1.0")
    (fun s => by intro h; cases h) (fun s => by intro h; cases h)

/-! ## C7 -/

/-- C7: `specifiedScalarTypes` is the fixed ordered list [String, Int,
Float, Boolean, ID] — each built-in name appearing exactly once, in that
order — and `isSpecifiedScalarType t` is true iff some entry's name equals
`t.name`: name-based, so it holds of any definition carrying one of the
five reserved names and of no other name. -/
theorem registry_characterization :
    specifiedScalarTypes = [GraphQLString, GraphQLInt, GraphQLFloat, GraphQLBoolean, GraphQLID] ∧
    specifiedScalarTypes.map GraphQLScalarType.name = ["String", "Int", "Float", "Boolean", "ID"] ∧
    (specifiedScalarTypes.map GraphQLScalarType.name).Nodup ∧
    (∀ t : GraphQLNamedType, isSpecifiedScalarType t = true ↔
      ∃ s ∈ specifiedScalarTypes, s.name = t.name) ∧
    (∀ t : GraphQLNamedType, isSpecifiedScalarType t = true ↔
      (t.name = "String" ∨ t.name = "Int" ∨ t.name = "Float" ∨
        t.name = "Boolean" ∨ t.name = "ID")) := by
  refine ⟨rfl, rfl, by decide, ?_, ?_⟩
  · intro t
    simp only [isSpecifiedScalarType, specifiedScalarTypes, List.any_eq_true,
      beq_iff_eq, List.mem_cons, List.not_mem_nil, or_false]
    constructor
    · rintro ⟨s, hs, he⟩; exact ⟨s, hs, he.symm⟩
    · rintro ⟨s, hs, he⟩; exact ⟨s, hs, he.symm⟩
  · intro t
    simp only [isSpecifiedScalarType, specifiedScalarTypes, List.any_eq_true,
      beq_iff_eq, List.mem_cons, List.not_mem_nil, or_false]
    constructor
    · rintro ⟨s, hs, he⟩
      rcases hs with rfl | rfl | rfl | rfl | rfl
      · exact Or.inl he
      · exact Or.inr (Or.inl he)
      · exact Or.inr (Or.inr (Or.inl he))
      · exact Or.inr (Or.inr (Or.inr (Or.inl he)))
      · exact Or.inr (Or.inr (Or.inr (Or.inr he)))
    · rintro (h | h | h | h | h)
      · exact ⟨GraphQLString, Or.inl rfl, h⟩
      · exact ⟨GraphQLInt, Or.inr (Or.inl rfl), h⟩
      · exact ⟨GraphQLFloat, Or.inr (Or.inr (Or.inl rfl)), h⟩
      · exact ⟨GraphQLBoolean, Or.inr (Or.inr (Or.inr (Or.inl rfl))), h⟩
      · exact ⟨GraphQLID, Or.inr (Or.inr (Or.inr (Or.inr rfl))), h⟩

/-- C7 witness: the membership test holds of the name "Int" (on a fresh
named-type record, not the registered definition object) and fails of the
name "Matrix". -/
theorem registry_characterization_witness :
    isSpecifiedScalarType ⟨"Int"⟩ = true ∧ isSpecifiedScalarType ⟨"Matrix"⟩ ≠ true :=
  ⟨(registry_characterization.2.2.2.2 ⟨"Int"⟩).mpr (Or.inr (Or.inl rfl)),
   fun h => by rcases (registry_characterization.2.2.2.2 ⟨"Matrix"⟩).mp h with
     h | h | h | h | h <;> exact absurd h (by decide)⟩

/-! ## C8 -/

/-- C8: for each of the five scalar definitions, whenever `serialize`
succeeds on a value, applying `serialize` again to the returned value
succeeds and returns it unchanged: `serialize (serialize v) = serialize v`. -/
theorem serialize_idempotent :
    (∀ v r, GraphQLInt.serialize v = .ok r → GraphQLInt.serialize r = .ok r) ∧
    (∀ v r, GraphQLFloat.serialize v = .ok r → GraphQLFloat.serialize r = .ok r) ∧
    (∀ v r, GraphQLString.serialize v = .ok r → GraphQLString.serialize r = .ok r) ∧
    (∀ v r, GraphQLBoolean.serialize v = .ok r → GraphQLBoolean.serialize r = .ok r) ∧
    (∀ v r, GraphQLID.serialize v = .ok r → GraphQLID.serialize r = .ok r) := by
  refine ⟨?_, ?_, ?_, ?_, ?_⟩
  · -- Int
    intro v r hm
    rw [show GraphQLInt.serialize = intSerialize from rfl] at hm ⊢
    by_cases hv : v = .str ""
    · rw [hv] at hm; exact absurd hm (by simp [intSerialize, JSValue.strictEqEmptyStr])
    by_cases hnan : jsToNumber v = .nan
    · rw [intSerialize_err_badnum hv (Or.inl hnan)] at hm; cases hm
    by_cases hr : outOfInt32Range (jsToNumber v)
    · rw [intSerialize_err_badnum hv (Or.inr hr)] at hm; cases hm
    by_cases hf : isFractional (jsToNumber v)
    · rw [intSerialize_err_fractional hv hr hf] at hm; cases hm
    rw [intSerialize_ok_of_good hv hnan hr hf] at hm
    obtain rfl : JSValue.num ((jsToNumber v).jsFloor) = r := by
      cases hm; rfl
    rcases hx : jsToNumber v with _ | q
    · exact absurd hx hnan
    · rw [hx] at hr hf
      have hq : ((⌊q⌋ : ℤ) : ℚ) = q := by
        by_contra hc; exact hf hc
      have : (JSNum.fin q).jsFloor = .fin q := by
        simp only [JSNum.jsFloor]; rw [hq]
      have h2 := intSerialize_ok_of_good
        (v := .num (.fin q)) (by intro h; cases h)
        (by intro h; cases h)
        (by simpa [jsToNumber] using hr)
        (by simpa [jsToNumber, isFractional] using hf)
      rw [this, h2, show jsToNumber (.num (.fin q)) = .fin q from rfl, this]
    · rw [hx] at hr; exact absurd trivial hr
    · rw [hx] at hr; exact absurd trivial hr
  · -- Float
    intro v r hm
    rw [show GraphQLFloat.serialize = floatSerialize from rfl] at hm ⊢
    by_cases hv : v = .str ""
    · rw [hv] at hm; exact absurd hm (by simp [floatSerialize, JSValue.strictEqEmptyStr])
    by_cases hnan : jsToNumber v = .nan
    · rw [show floatSerialize v
          = .err ("Float cannot represent non numeric value: " ++ v.jsToString) from by
        simp only [floatSerialize, strictEqEmptyStr_false hv, Bool.false_eq_true, if_false]
        rw [if_neg (by rw [hnan]; simp [JSNum.jsEq])]] at hm
      cases hm
    · rw [show floatSerialize v = .ok (.num (jsToNumber v)) from by
        simp only [floatSerialize, strictEqEmptyStr_false hv, Bool.false_eq_true, if_false]
        rw [if_pos ((jsEq_refl_iff (jsToNumber v)).mpr hnan)]] at hm
      obtain rfl : JSValue.num (jsToNumber v) = r := by cases hm; rfl
      simp only [floatSerialize, JSValue.strictEqEmptyStr, Bool.false_eq_true, if_false]
      rw [if_pos ((jsEq_refl_iff (jsToNumber (.num (jsToNumber v)))).mpr
        (by simpa [jsToNumber] using hnan))]
      simp only [jsToNumber]
  · -- String
    intro v r hm
    rw [show GraphQLString.serialize = stringSerialize from rfl] at hm ⊢
    by_cases ha : v.isArray = true
    · rw [show stringSerialize v
          = .err ("String cannot represent an array value: [" ++ v.jsToString ++ "]") from by
        simp only [stringSerialize, ha, if_true]] at hm
      cases hm
    · rw [show stringSerialize v = .ok (.str v.jsToString) from by
        simp only [stringSerialize]; rw [if_neg ha]] at hm
      obtain rfl : JSValue.str v.jsToString = r := by cases hm; rfl
      rfl
  · -- Boolean
    intro v r hm
    rw [show GraphQLBoolean.serialize = booleanSerialize from rfl] at hm ⊢
    simp only [booleanSerialize] at hm
    obtain rfl : JSValue.bool v.jsToBoolean = r := by cases hm; rfl
    rfl
  · -- ID
    intro v r hm
    rw [show GraphQLID.serialize = idSerialize from rfl] at hm ⊢
    simp only [idSerialize] at hm
    obtain rfl : JSValue.str v.jsToString = r := by cases hm; rfl
    rfl

/-- C8 witness: instance of the Boolean clause — serializing the result of
`Boolean.serialize("a")` returns it unchanged. -/
theorem serialize_idempotent_witness :
    GraphQLBoolean.serialize (.bool true) = .ok (.bool true) :=
  serialize_idempotent.2.2.2.1 (.str "a") (.bool true) rfl

/-! ## C9 -/

/-- C9: `serializeObject` is a three-way capability probe: an object-like
value whose `valueOf` capability extracts a non-object-like result returns
that extracted primitive; otherwise an object-like value exposing a
`toJSON` capability returns that capability's result; otherwise — every
non-object-like value included — the value is returned unchanged. -/
theorem serializeObject_probe :
    (∀ v r, v.isObjectLike = true → valueOfCap v = some r → r.isObjectLike = false →
      serializeObject v = r) ∧
    (∀ v j, v.isObjectLike = true →
      (∀ r, valueOfCap v = some r → r.isObjectLike = true) →
      toJSONCap v = some j → serializeObject v = j) ∧
    (∀ v, v.isObjectLike = false → serializeObject v = v) ∧
    (∀ v, (∀ r, valueOfCap v = some r → r.isObjectLike = true) →
      toJSONCap v = none → serializeObject v = v) := by
  refine ⟨?_, ?_, ?_, ?_⟩
  · intro v r hobj hcap hprim
    cases v with
    | arr xs =>
      obtain rfl : JSValue.arr xs = r := by
        simpa [valueOfCap] using hcap
      exact absurd hprim (by simp [JSValue.isObjectLike])
    | obj vOf tJ =>
      obtain rfl : vOf = some r := by simpa [valueOfCap] using hcap
      simp [serializeObject, valueOfCap, toJSONCap, hprim,
        show (JSValue.obj (some r) tJ).isObjectLike = true from rfl]
    | num x => cases hobj
    | str s => cases hobj
    | bool b => cases hobj
    | null => cases hobj
    | undefined => cases hobj
  · intro v j hobj hcap hjson
    cases v with
    | arr xs => simp [toJSONCap] at hjson
    | obj vOf tJ =>
      obtain rfl : tJ = some j := by simpa [toJSONCap] using hjson
      cases vOf with
      | none =>
        simp [serializeObject, valueOfCap, toJSONCap,
          show (JSValue.obj none (some j)).isObjectLike = true from rfl]
      | some r =>
        have hr : r.isObjectLike = true := hcap r (by simp [valueOfCap])
        simp [serializeObject, valueOfCap, toJSONCap, hr,
          show (JSValue.obj (some r) (some j)).isObjectLike = true from rfl]
    | num x => cases hobj
    | str s => cases hobj
    | bool b => cases hobj
    | null => cases hobj
    | undefined => cases hobj
  · intro v hobj
    cases v with
    | arr xs => cases hobj
    | obj vOf tJ => cases hobj
    | num x => rfl
    | str s => rfl
    | bool b => rfl
    | null => rfl
    | undefined => rfl
  · intro v hcap hjson
    cases v with
    | arr xs =>
      have := hcap (.arr xs) (by simp [valueOfCap])
      simp [serializeObject, valueOfCap, toJSONCap, this,
        show (JSValue.arr xs).isObjectLike = true from rfl]
    | obj vOf tJ =>
      obtain rfl : tJ = none := by simpa [toJSONCap] using hjson
      cases vOf with
      | none =>
        simp [serializeObject, valueOfCap, toJSONCap,
          show (JSValue.obj none none).isObjectLike = true from rfl]
      | some r =>
        have hr : r.isObjectLike = true := hcap r (by simp [valueOfCap])
        simp [serializeObject, valueOfCap, toJSONCap, hr,
          show (JSValue.obj (some r) none).isObjectLike = true from rfl]
    | num x => rfl
    | str s => rfl
    | bool b => rfl
    | null => rfl
    | undefined => rfl

/-- C9 witness: instance of the primitive-extraction clause at an object
whose `valueOf` capability yields the number 5. -/
theorem serializeObject_probe_witness :
    serializeObject (.obj (some (.num (.fin 5))) none) = .num (.fin 5) :=
  serializeObject_probe.1 (.obj (some (.num (.fin 5))) none) (.num (.fin 5))
    rfl rfl rfl

/-! ## C10 -/

/-- C10: for every one of the five scalar definitions and every literal
node, `parseLiteral` is total and never produces a coercion error: the
outcome is always either a successfully coerced value or NotApplicable. -/
theorem parseLiteral_never_errors
    (s : GraphQLScalarType) (hs : s ∈ specifiedScalarTypes) (ast : ASTNode) :
    (∃ w, s.parseLiteral ast = .ok w) ∨ s.parseLiteral ast = .notApplicable := by
  simp only [specifiedScalarTypes, List.mem_cons, List.not_mem_nil, or_false] at hs
  rcases hs with rfl | rfl | rfl | rfl | rfl
  · -- String
    cases ast with
    | stringNode v => exact Or.inl ⟨_, rfl⟩
    | intNode v => exact Or.inr rfl
    | floatNode v => exact Or.inr rfl
    | booleanNode b => exact Or.inr rfl
    | otherNode k => exact Or.inr rfl
  · -- Int
    cases ast with
    | intNode v =>
      rw [show GraphQLInt.parseLiteral = intParseLiteral from rfl]
      rcases hp : jsParseInt10 v with _ | n
      · exact Or.inr (by simp only [intParseLiteral, hp])
      · by_cases h : n ≤ GRAPHQL_MAX_INT ∧ n ≥ GRAPHQL_MIN_INT
        · exact Or.inl ⟨.num (.fin (n : ℚ)),
            by simp only [intParseLiteral, hp]; rw [if_pos h]⟩
        · exact Or.inr (by simp only [intParseLiteral, hp]; rw [if_neg h])
    | stringNode v => exact Or.inr rfl
    | floatNode v => exact Or.inr rfl
    | booleanNode b => exact Or.inr rfl
    | otherNode k => exact Or.inr rfl
  · -- Float
    cases ast with
    | floatNode v => exact Or.inl ⟨_, rfl⟩
    | intNode v => exact Or.inl ⟨_, rfl⟩
    | stringNode v => exact Or.inr rfl
    | booleanNode b => exact Or.inr rfl
    | otherNode k => exact Or.inr rfl
  · -- Boolean
    cases ast with
    | booleanNode b => exact Or.inl ⟨_, rfl⟩
    | intNode v => exact Or.inr rfl
    | floatNode v => exact Or.inr rfl
    | stringNode v => exact Or.inr rfl
    | otherNode k => exact Or.inr rfl
  · -- ID
    cases ast with
    | stringNode v => exact Or.inl ⟨_, rfl⟩
    | intNode v => exact Or.inl ⟨_, rfl⟩
    | floatNode v => exact Or.inr rfl
    | booleanNode b => exact Or.inr rfl
    | otherNode k => exact Or.inr rfl

/-- C10 witness: instance at the Int scalar on a STRING node. -/
theorem parseLiteral_never_errors_witness :
    (∃ w, GraphQLInt.parseLiteral (.stringNode "x") = .ok w) ∨
      GraphQLInt.parseLiteral (.stringNode "x") = .notApplicable :=
  parseLiteral_never_errors GraphQLInt (by simp [specifiedScalarTypes]) (.stringNode "x")
